import Mathlib

/-!
Verification of the backend service in `src/backend/main.py` (a FastAPI app
that renders a session context into a fixed system prompt, sends it to a
language-model endpoint, cleans and JSON-parses the reply, and relays it).

Shallow embedding conventions:
* Python strings are Lean `String`s; character-level helpers run on `List Char`.
* The handler's `print` logging is I/O and is modelled as producing the
  formatted log strings (string formatting of already-validated fields is
  total); stdout failures are outside the model.
* The single outbound model call `model.generate_content_async(full_prompt)`
  is modelled by passing the model's text reply as a parameter and recording
  the list of prompts sent (one entry per issued request).  Transport errors
  of the call itself are not needed by any claim and are not modelled.
* `json.loads` is modelled by `json_loads` below, a fuel-based parser of the
  strict JSON grammar Python's `json` module accepts (objects, arrays,
  strings with escapes, numbers, `true`/`false`/`null`, ASCII whitespace,
  whole-input consumption).  Python extras that no claim touches are not
  modelled: `NaN`/`Infinity` literals, surrogate-pair combination in `\u`
  escapes, duplicate-key collapse (an object is kept as the parsed field
  list in source order), and the int/float distinction (a number is kept as
  decimal mantissa and exponent).
-/

/-! ## Data model (src/backend/main.py lines 12–21) -/

/-- Lines 12–14: pydantic model `ChatMessage`. -/
structure ChatMessage where
  sender : String
  text : String

/-- Lines 16–21: pydantic model `ChatRequest` (field order as in the source). -/
structure ChatRequest where
  prompt : String
  chatHistory : List ChatMessage
  currentWorkingDirectory : String
  fileSystemTree : String
  terminalOutput : String

/-! ## Python string primitives used by the handler -/

/-- The characters Python `str.strip()` removes (ASCII whitespace;
Unicode space classes are not used by any claim). -/
def isPySpace (c : Char) : Bool :=
  c = ' ' || c = '\t' || c = '\n' || c = '\r' || c = '\x0b' || c = '\x0c'

/-- Python `str.strip()`. -/
def pyStrip (s : String) : String :=
  String.mk (((s.data.dropWhile isPySpace).reverse.dropWhile isPySpace).reverse)

/-- Python `str.replace(pat, rep)` on character lists: replaces every
non-overlapping occurrence, scanning left to right.  `fuel` bounds the
recursion; each step consumes at least one input character, so
`input.length + 1` fuel is always sufficient. -/
def replaceAllL (pat rep : List Char) : Nat → List Char → List Char
  | _, [] => []
  | 0, cs => cs
  | fuel+1, c :: cs =>
    if pat ≠ [] ∧ pat.isPrefixOf (c :: cs) then
      rep ++ replaceAllL pat rep fuel ((c :: cs).drop pat.length)
    else
      c :: replaceAllL pat rep fuel cs

/-- Python `s.replace(pat, rep)` on strings. -/
def pyReplace (s pat rep : String) : String :=
  String.mk (replaceAllL pat.data rep.data (s.data.length + 1) s.data)

/-- Python `a or b` for strings: `b` when `a` is falsy (empty), else `a`. -/
def pyOr (a b : String) : String :=
  if a = "" then b else a

/-- Python `sep.join(parts)`. -/
def pyJoin (sep : String) : List String → String
  | [] => ""
  | [x] => x
  | x :: xs => x ++ sep ++ pyJoin sep xs

/-! ## `format_chat_history` (lines 90–94) -/

/-- Lines 90–94: `format_chat_history` — `"No history yet."` for an empty
(falsy) list, otherwise the turns `f"{msg.sender}: {msg.text}"` joined with
newlines. -/
def format_chat_history (history : List ChatMessage) : String :=
  if history.isEmpty then
    "No history yet."
  else
    pyJoin "\n" (history.map (fun msg => msg.sender ++ ": " ++ msg.text))

/-! ## `SYSTEM_PROMPT_TEMPLATE` (lines 53–88)

The template is split at its four substitution slots
(`currentWorkingDirectory`, `fileSystemTree`, `terminalOutput`,
`chatHistory`); `\x7b\x7b`/`\x7d\x7d` escapes of the Python format string
render as single literal braces, written `\x7b`/`\x7d` below. -/

/-- Template text from the opening `"""` through `Current Directory:\n`. -/
def promptPart0 : String :=
  "\nYou are an expert web developer agent. Your goal is to help the user build and modify a web application based on their requests by executing commands in a sandboxed Node.js environment.\n\nYour response MUST ALWAYS be a single, valid JSON object. Do not add any text or markdown formatting like ```json before or after the object.\n\nYou have four tools available:\n1.  \x7b\"action\": \"cd\", \"path\": \"<directory_name>\"\x7d - Change the current working directory.\n2.  \x7b\"action\": \"command\", \"payload\": \"<command_to_run>\"\x7d - Run a terminal command.\n3.  \x7b\"action\": \"file\", \"path\": \"<file_path>\", \"content\": \"<file_content>\"\x7d - Write to a file.\n4.  \x7b\"action\": \"chat\", \"payload\": \"<message_to_user>\"\x7d - Respond with a chat message.\n\n--- CONTEXT ---\nThis information is provided on every turn to help you decide on the next best action.\n\nCurrent Directory:\n"

/-- Template text between the `currentWorkingDirectory` and
`fileSystemTree` slots. -/
def promptPart1 : String :=
  "\n\nFile System Listing in Current Directory (`ls -l`):\n"

/-- Template text between the `fileSystemTree` and `terminalOutput` slots. -/
def promptPart2 : String :=
  "\n\nOutput from the Last Executed Command:\n"

/-- Template text between the `terminalOutput` and `chatHistory` slots. -/
def promptPart3 : String :=
  "\n\nConversation History:\n"

/-- Template text from after the `chatHistory` slot to the closing `"""`. -/
def promptPart4 : String :=
  "\n--- END OF CONTEXT ---\n\n--- YOUR TASK ---\nBased on the user's latest prompt and ALL of the context provided above, choose the single most logical next action from your available tools.\n\n**CRITICAL THINKING RULES:**\n1.  **Examine the Last Command's Output:** This is your most important piece of context. If a command just finished and printed instructions (e.g., \"Now run: cd my-app\"), your next action should probably follow those instructions.\n2.  **Be Proactive:** If you just created a project in a new directory (e.g., `my-app`), the next logical step is ALWAYS to `cd` into that directory. Do not wait for the user to tell you. Take the initiative.\n3.  **Check Your Location:** Before running `npm install` or `npm run dev`, ensure you are in the correct project directory by checking the \"Current Directory\" context. These commands will fail if run from the root ('/').\n4.  **One Step at a Time:** Decompose complex tasks into a sequence of single actions.\n"

/-- `SYSTEM_PROMPT_TEMPLATE.format(...)` (lines 53–88): the template's four
named slots filled positionally.  Note the template has no slot for the
request's `prompt` field. -/
def SYSTEM_PROMPT_TEMPLATE_format
    (currentWorkingDirectory fileSystemTree terminalOutput chatHistory : String) : String :=
  promptPart0 ++ currentWorkingDirectory ++ promptPart1 ++ fileSystemTree ++
    promptPart2 ++ terminalOutput ++ promptPart3 ++ chatHistory ++ promptPart4

/-- Lines 117–122: `full_prompt = SYSTEM_PROMPT_TEMPLATE.format(
currentWorkingDirectory=request.currentWorkingDirectory,
fileSystemTree=request.fileSystemTree or "Not available.",
terminalOutput=request.terminalOutput or "No previous command output.",
chatHistory=format_chat_history(request.chatHistory))`.
`currentWorkingDirectory` is passed through with no `or` fallback. -/
def render (request : ChatRequest) : String :=
  SYSTEM_PROMPT_TEMPLATE_format
    request.currentWorkingDirectory
    (pyOr request.fileSystemTree "Not available.")
    (pyOr request.terminalOutput "No previous command output.")
    (format_chat_history request.chatHistory)

/-- Line 130: `cleaned_response_text =
response.text.strip().replace('```json', '').replace('```', '').strip()`. -/
def clean (raw : String) : String :=
  pyStrip (pyReplace (pyReplace (pyStrip raw) "```json" "") "```" "")

/-! ## A model of Python `json.loads` -/

/-- JSON values as produced by `json.loads`.  An object is kept as its field
list in parse order; a number is kept as decimal mantissa `m` and exponent
`e` (value `m * 10 ^ e`). -/
inductive JsonVal where
  | null : JsonVal
  | bool : Bool → JsonVal
  | num : Int → Int → JsonVal
  | str : String → JsonVal
  | arr : List JsonVal → JsonVal
  | obj : List (String × JsonVal) → JsonVal

/-- The double-quote character (written via its code to keep string-scanning
tooling simple). -/
def qc : Char := Char.ofNat 34

/-- JSON inter-token whitespace (space, tab, newline, carriage return). -/
def jsonWs (c : Char) : Bool :=
  c = ' ' || c = '\t' || c = '\n' || c = '\r'

/-- Drop leading JSON whitespace. -/
def skipWs : List Char → List Char
  | c :: cs => if jsonWs c then skipWs cs else c :: cs
  | [] => []

/-- Hexadecimal digit value (case-insensitive), for `\u` escapes. -/
def hexVal (c : Char) : Option Nat :=
  if '0' ≤ c ∧ c ≤ '9' then some (c.toNat - 48)
  else if 'a' ≤ c ∧ c ≤ 'f' then some (c.toNat - 87)
  else if 'A' ≤ c ∧ c ≤ 'F' then some (c.toNat - 55)
  else none

/-- Parse the body of a JSON string (the opening quote already consumed):
returns the decoded characters and the remaining input after the closing
quote.  Escapes `\" \\ \/ \b \f \n \r \t \uXXXX` are decoded; an unescaped
control character (code < 32) or an unknown escape is an error, as in
Python's strict mode. -/
def parseJString : List Char → Option (List Char × List Char)
  | [] => none
  | c :: rest =>
    if c = qc then some ([], rest)
    else if c = '\\' then
      match rest with
      | [] => none
      | e :: rest2 =>
        if e = qc then (parseJString rest2).map (fun p => (qc :: p.1, p.2))
        else if e = '\\' then (parseJString rest2).map (fun p => ('\\' :: p.1, p.2))
        else if e = '/' then (parseJString rest2).map (fun p => ('/' :: p.1, p.2))
        else if e = 'b' then (parseJString rest2).map (fun p => ('\x08' :: p.1, p.2))
        else if e = 'f' then (parseJString rest2).map (fun p => ('\x0c' :: p.1, p.2))
        else if e = 'n' then (parseJString rest2).map (fun p => ('\n' :: p.1, p.2))
        else if e = 'r' then (parseJString rest2).map (fun p => ('\r' :: p.1, p.2))
        else if e = 't' then (parseJString rest2).map (fun p => ('\t' :: p.1, p.2))
        else if e = 'u' then
          match rest2 with
          | h1 :: h2 :: h3 :: h4 :: rest3 =>
            match hexVal h1, hexVal h2, hexVal h3, hexVal h4 with
            | some a, some b, some c2, some d =>
              (parseJString rest3).map
                (fun p => (Char.ofNat (((a * 16 + b) * 16 + c2) * 16 + d) :: p.1, p.2))
            | _, _, _, _ => none
          | _ => none
        else none
    else if c.toNat < 32 then none
    else (parseJString rest).map (fun p => (c :: p.1, p.2))

/-- Decimal digits to a natural number. -/
def digitsToNat (ds : List Char) : Nat :=
  ds.foldl (fun n c => n * 10 + (c.toNat - 48)) 0

/-- Optional fraction part `.digits`; `none` on a dot with no digits. -/
def parseFrac : List Char → Option (List Char × List Char)
  | '.' :: r =>
    match r.span Char.isDigit with
    | ([], _) => none
    | (ds, r2) => some (ds, r2)
  | cs => some ([], cs)

/-- Optional exponent part `[eE][+-]?digits` as a signed integer. -/
def parseExp : List Char → Option (Int × List Char)
  | c :: r =>
    if c = 'e' ∨ c = 'E' then
      match r with
      | '+' :: r2 =>
        (match r2.span Char.isDigit with
         | ([], _) => none
         | (ds, r3) => some ((digitsToNat ds : Int), r3))
      | '-' :: r2 =>
        (match r2.span Char.isDigit with
         | ([], _) => none
         | (ds, r3) => some (-(digitsToNat ds : Int), r3))
      | _ =>
        (match r.span Char.isDigit with
         | ([], _) => none
         | (ds, r3) => some ((digitsToNat ds : Int), r3))
    else some (0, c :: r)
  | [] => some (0, [])

/-- Parse a JSON number per the grammar Python's `json` module uses:
`-?(0|[1-9][0-9]*)(\.[0-9]+)?([eE][+-]?[0-9]+)?`. -/
def parseNumber (cs : List Char) : Option (JsonVal × List Char) :=
  let signSplit : Bool × List Char :=
    match cs with
    | '-' :: r => (true, r)
    | _ => (false, cs)
  match signSplit.2.span Char.isDigit with
  | ([], _) => none
  | (intDs, cs2) =>
    if 1 < intDs.length ∧ intDs.head? = some '0' then none
    else
      match parseFrac cs2 with
      | none => none
      | some (fracDs, cs3) =>
        match parseExp cs3 with
        | none => none
        | some (e, cs4) =>
          let mNat : Nat := digitsToNat (intDs ++ fracDs)
          let m : Int := if signSplit.1 then -(mNat : Int) else (mNat : Int)
          some (.num m (e - (fracDs.length : Int)), cs4)

mutual

/-- Parse one JSON value (leading whitespace allowed); `fuel` bounds the
nesting recursion — each level consumes at least one character, so
`input.length + 2` fuel never runs out on input the grammar accepts. -/
def parseVal : Nat → List Char → Option (JsonVal × List Char)
  | 0, _ => none
  | fuel+1, cs =>
    match skipWs cs with
    | 'n' :: 'u' :: 'l' :: 'l' :: rest => some (.null, rest)
    | 't' :: 'r' :: 'u' :: 'e' :: rest => some (.bool true, rest)
    | 'f' :: 'a' :: 'l' :: 's' :: 'e' :: rest => some (.bool false, rest)
    | '[' :: rest =>
      (match skipWs rest with
       | ']' :: r => some (.arr [], r)
       | r => (parseElems fuel r).map (fun p => (JsonVal.arr p.1, p.2)))
    | '\x7b' :: rest =>
      (match skipWs rest with
       | '\x7d' :: r => some (.obj [], r)
       | r => (parseMembers fuel r).map (fun p => (JsonVal.obj p.1, p.2)))
    | c :: rest =>
      if c = qc then
        (parseJString rest).map (fun p => (JsonVal.str (String.mk p.1), p.2))
      else parseNumber (c :: rest)
    | [] => none

/-- Parse the comma-separated elements of a non-empty array, consuming the
closing `]`. -/
def parseElems : Nat → List Char → Option (List JsonVal × List Char)
  | 0, _ => none
  | fuel+1, cs =>
    (parseVal fuel cs).bind (fun p =>
      match skipWs p.2 with
      | ',' :: r => (parseElems fuel r).map (fun q => (p.1 :: q.1, q.2))
      | ']' :: r => some ([p.1], r)
      | _ => none)

/-- Parse the comma-separated members of a non-empty object (keys must be
strings), consuming the closing brace. -/
def parseMembers : Nat → List Char → Option (List (String × JsonVal) × List Char)
  | 0, _ => none
  | fuel+1, cs =>
    match cs with
    | c :: rest =>
      if c = qc then
        (parseJString rest).bind (fun kp =>
          match skipWs kp.2 with
          | ':' :: r2 =>
            (parseVal fuel r2).bind (fun vp =>
              match skipWs vp.2 with
              | ',' :: r3 =>
                (parseMembers fuel (skipWs r3)).map
                  (fun mp => ((String.mk kp.1, vp.1) :: mp.1, mp.2))
              | '\x7d' :: r3 => some ([(String.mk kp.1, vp.1)], r3)
              | _ => none)
          | _ => none)
      else none
    | [] => none

end

/-- Model of `json.loads`: parse one value and require that only whitespace
remains (Python raises on trailing data); `none` models a raised
`json.JSONDecodeError`. -/
def json_loads (s : String) : Option JsonVal :=
  match parseVal (s.data.length + 2) s.data with
  | some (v, rest) => if skipWs rest = [] then some v else none
  | none => none

/-! ## The request handler `chat_handler` (lines 100–153) -/

/-- A FastAPI `HTTPException` as seen by the caller: status code and detail. -/
structure HTTPError where
  status : Nat
  detail : String

/-- A Python exception alive inside the handler's outer `try` block.
`fastapi.HTTPException` derives from `Exception`, so it is caught by the
`except Exception` clause on line 150 like any other exception. -/
inductive PyExc where
  | httpExc : HTTPError → PyExc

/-- Python `str(e)` for the exceptions above; for `HTTPException`,
starlette defines `__str__` as `f"{status_code}: {detail}"`. -/
def strPyExc : PyExc → String
  | .httpExc e => toString e.status ++ ": " ++ e.detail

/-- Lines 106–114: the logging block guarded by the inner `try`.  Its body
only interpolates fields of the already-validated `ChatRequest` into
f-strings and prints them; string formatting of `str` fields is total, so
the body is modelled as always returning the formatted log lines (`print`
I/O failures are outside the model).  The `except` clause (line 113) would
surface HTTP 422 `"Invalid request body structure."`. -/
def logBlock (request : ChatRequest) : Except HTTPError (List String) :=
  .ok ["Pydantic model validation successful.",
       "Prompt: " ++ request.prompt,
       "CWD: " ++ request.currentWorkingDirectory]

/-- Lines 116–148: the body of the outer `try` block.  Returns the list of
prompts sent to the model (the single `generate_content_async` call on
line 129, whose text reply is the parameter `modelReply`) and either the
value returned to FastAPI (line 148 wraps the parsed reply as
`{"response": parsed}`, written with escaped braces here) or the exception
escaping the block — on a `json.loads` failure the inner `except` on lines
140–142 raises HTTP 500 `"Invalid JSON response from AI model."`. -/
def try_body (request : ChatRequest) (modelReply : String) :
    List String × Except PyExc JsonVal :=
  let full_prompt := render request
  let cleaned := clean modelReply
  match json_loads cleaned with
  | none =>
    ([full_prompt], .error (.httpExc ⟨500, "Invalid JSON response from AI model."⟩))
  | some v =>
    ([full_prompt], .ok (JsonVal.obj [("response", v)]))

/-- Lines 100–153: `chat_handler`.  `modelInitialized` models the global
`model` handle being non-`None` (lines 45–50, checked on line 102);
`modelReply` is the text the model call would return.  The result is the
list of prompts sent to the model endpoint together with the handler's
outcome: a 200 payload or the `HTTPException` the caller sees.  Any
exception escaping the outer `try` — including the `HTTPException` raised
on line 142 — is caught by `except Exception` (line 150) and re-raised as
HTTP 500 `"An unexpected error occurred: " + str(e)` (line 153). -/
def chat_handler (modelInitialized : Bool) (request : ChatRequest)
    (modelReply : String) : List String × Except HTTPError JsonVal :=
  if modelInitialized = false then
    ([], .error ⟨500, "Gemini model not initialized. Check API Key."⟩)
  else
    match logBlock request with
    | .error _ => ([], .error ⟨422, "Invalid request body structure."⟩)
    | .ok _ =>
      match try_body request modelReply with
      | (prompts, .ok v) => (prompts, .ok v)
      | (prompts, .error e) =>
        (prompts, .error ⟨500, "An unexpected error occurred: " ++ strPyExc e⟩)

/-! ## Concrete inputs used by counterexamples and witnesses -/

/-- A valid request with non-empty working directory. -/
def sampleReq : ChatRequest := ⟨"make an app", [], "/", "", ""⟩

/-- A valid request whose four context fields are all empty. -/
def emptyCtxReq : ChatRequest := ⟨"p", [], "", "", ""⟩

/-! ## Claims -/

/-- Claim C1 (code_bug evidence): per call, `chat_handler` issues exactly one
request to the model endpoint, carrying the rendered prompt — but the
rendered prompt does not incorporate the request's `prompt` field: `render`
is invariant under replacing `prompt` by any other string, because
`SYSTEM_PROMPT_TEMPLATE` has no slot for it, although its task section tells
the model to act on "the user's latest prompt" and the handler logs
`request.prompt`.  So the single-call half of the claim holds and the
prompt-incorporation half fails on the code. -/
theorem chat_handler_single_call_prompt_dropped
    (request : ChatRequest) (modelReply p : String) :
    (chat_handler true request modelReply).1 = [render request] ∧
    render ⟨p, request.chatHistory, request.currentWorkingDirectory,
            request.fileSystemTree, request.terminalOutput⟩ = render request := by
  refine ⟨?_, rfl⟩
  unfold chat_handler logBlock try_body
  rcases h : json_loads (clean modelReply) with _ | v <;> simp [h]

/-- Claim C2 (counterexample): with every context field empty, the handler
renders the `currentWorkingDirectory` slot as the empty string — the
rendered prompt is NOT the one obtained by substituting the fixed
placeholder `"Not available."` for the empty working directory, so the
`Current Directory:` section of the prompt is blank, contrary to the claim
that every empty context field is replaced by a placeholder. -/
theorem render_empty_cwd_not_replaced :
    render emptyCtxReq =
      SYSTEM_PROMPT_TEMPLATE_format "" "Not available."
        "No previous command output." "No history yet." ∧
    SYSTEM_PROMPT_TEMPLATE_format "" "Not available."
        "No previous command output." "No history yet." ≠
      SYSTEM_PROMPT_TEMPLATE_format "Not available." "Not available."
        "No previous command output." "No history yet." := by
  refine ⟨rfl, ?_⟩
  set_option maxRecDepth 40000 in decide

/-- Claim C2 (amended): rendering replaces an empty `fileSystemTree`,
`terminalOutput`, and `chatHistory` with their fixed placeholders
(`"Not available."`, `"No previous command output."`, `"No history yet."`),
but `currentWorkingDirectory` is substituted verbatim with no fallback, so
an empty working directory leaves that section blank. -/
theorem render_placeholders_amended (request : ChatRequest)
    (hfs : request.fileSystemTree = "")
    (hterm : request.terminalOutput = "")
    (hh : request.chatHistory = []) :
    render request =
      SYSTEM_PROMPT_TEMPLATE_format request.currentWorkingDirectory
        "Not available." "No previous command output." "No history yet." := by
  simp [render, pyOr, format_chat_history, hfs, hterm, hh]

/-- Witness for `render_placeholders_amended` at a concrete request. -/
theorem render_placeholders_amended_witness :
    render ⟨"p", [], "/home", "", ""⟩ =
      SYSTEM_PROMPT_TEMPLATE_format "/home"
        "Not available." "No previous command output." "No history yet." :=
  render_placeholders_amended ⟨"p", [], "/home", "", ""⟩ rfl rfl rfl

/-- Claim C3 (code_bug evidence): on the reply `"not json at all"` the
handler does fail with HTTP 500 and never returns the raw text, but the
caller-visible detail is not the fixed message: the `HTTPException` raised
with detail `"Invalid JSON response from AI model."` (line 142) is caught
by the outer `except Exception` (line 150) and re-raised re-wrapped as
`"An unexpected error occurred: " + str(e)` (line 153). -/
theorem chat_handler_malformed_reply_rewrapped :
    (chat_handler true sampleReq "not json at all").2 =
      Except.error ⟨500,
        "An unexpected error occurred: 500: Invalid JSON response from AI model."⟩ ∧
    "An unexpected error occurred: 500: Invalid JSON response from AI model." ≠
      "Invalid JSON response from AI model." := by
  refine ⟨rfl, ?_⟩
  decide

/-- Claim C4 (counterexample): the cleaning step does not strip only
leading/trailing fences — `replace` removes every occurrence, so triple
backticks inside a JSON string value are deleted as well, mangling the
payload. -/
theorem clean_strips_interior_fences :
    clean "\x7b\"a\":\"x```y\"\x7d" = "\x7b\"a\":\"xy\"\x7d" := by
  decide

/-- Claim C4 (amended): the cleaning step removes every occurrence of
`'```json'` and then every occurrence of `'```'` anywhere in the reply (not
only at its edges) and trims surrounding whitespace; in particular, feeding
the handler the fenced reply of the claim yields HTTP 200 with exactly the
parsed object with fields `action = "chat"`, `payload = "hi"`. -/
theorem negotiator_fenced_roundtrip :
    (chat_handler true sampleReq
        "```json\n\x7b\"action\":\"chat\",\"payload\":\"hi\"\x7d\n```").2 =
      Except.ok (JsonVal.obj [("response",
        JsonVal.obj [("action", JsonVal.str "chat"),
                     ("payload", JsonVal.str "hi")])]) := rfl

/-- Claim C5: an empty history renders as the fixed placeholder
`"No history yet."`; a non-empty history renders one entry per turn as
`"<sender>: <text>"`, joined by newlines in the original order (stated as
the singleton case plus the head-step case, which together determine the
rendering of every non-empty sequence by induction). -/
theorem format_chat_history_lines :
    format_chat_history [] = "No history yet." ∧
    (∀ m : ChatMessage, format_chat_history [m] = m.sender ++ ": " ++ m.text) ∧
    (∀ (m : ChatMessage) (ms : List ChatMessage), ms ≠ [] →
      format_chat_history (m :: ms) =
        (m.sender ++ ": " ++ m.text) ++ "\n" ++ format_chat_history ms) := by
  refine ⟨rfl, fun m => rfl, fun m ms hms => ?_⟩
  rcases ms with _ | ⟨m2, ms2⟩
  · exact absurd rfl hms
  · simp [format_chat_history, pyJoin]

/-- Witness for `format_chat_history_lines` on a concrete two-turn history. -/
theorem format_chat_history_lines_witness :
    format_chat_history [⟨"user", "hi"⟩, ⟨"agent", "ok"⟩] =
      ("user" ++ ": " ++ "hi") ++ "\n" ++ ("agent" ++ ": " ++ "ok") := by
  have h := format_chat_history_lines
  rw [h.2.2 ⟨"user", "hi"⟩ [⟨"agent", "ok"⟩] (by simp), h.2.1 ⟨"agent", "ok"⟩]

/-- Claim C6: whenever the cleaned reply parses as JSON — with no condition
on an `action` discriminator or payload shape — the handler returns the
parsed value wrapped as the response payload, unmodified. -/
theorem chat_handler_passthrough_valid_json
    (request : ChatRequest) (modelReply : String) (v : JsonVal)
    (h : json_loads (clean modelReply) = some v) :
    (chat_handler true request modelReply).2 =
      Except.ok (JsonVal.obj [("response", v)]) := by
  simp [chat_handler, logBlock, try_body, h]

/-- Witness for `chat_handler_passthrough_valid_json` on a concrete reply. -/
theorem chat_handler_passthrough_valid_json_witness :
    (chat_handler true sampleReq "\x7b\"action\": \"cd\", \"path\": \"src\"\x7d").2 =
      Except.ok (JsonVal.obj [("response",
        JsonVal.obj [("action", JsonVal.str "cd"),
                     ("path", JsonVal.str "src")])]) :=
  chat_handler_passthrough_valid_json sampleReq
    "\x7b\"action\": \"cd\", \"path\": \"src\"\x7d"
    (JsonVal.obj [("action", JsonVal.str "cd"), ("path", JsonVal.str "src")]) rfl

/-- Claim C7: with the model client uninitialized, every request yields
HTTP 500 with detail exactly `"Gemini model not initialized. Check API
Key."`, and the list of issued model requests is empty (no network I/O);
the outcome is independent of the request and of any would-be reply, and
the early return precedes prompt rendering. -/
theorem chat_handler_uninitialized_model
    (request : ChatRequest) (modelReply : String) :
    chat_handler false request modelReply =
      ([], Except.error ⟨500, "Gemini model not initialized. Check API Key."⟩) := rfl

/-- Claim C8: rendering is deterministic — it is a pure function of the
request's fields, so two requests that agree on every field render to the
same prompt string (there is no timestamp, randomness, or other hidden
input in the embedding, mirroring the source, whose only effects are
logging and the model call). -/
theorem render_deterministic (c1 c2 : ChatRequest)
    (_hp : c1.prompt = c2.prompt)
    (hh : c1.chatHistory = c2.chatHistory)
    (hcwd : c1.currentWorkingDirectory = c2.currentWorkingDirectory)
    (hfs : c1.fileSystemTree = c2.fileSystemTree)
    (hterm : c1.terminalOutput = c2.terminalOutput) :
    render c1 = render c2 := by
  simp [render, hh, hcwd, hfs, hterm]

/-- Witness for `render_deterministic` at a concrete context. -/
theorem render_deterministic_witness :
    render ⟨"p", [], "/", "", ""⟩ = render ⟨"p", [], "/", "", ""⟩ :=
  render_deterministic ⟨"p", [], "/", "", ""⟩ ⟨"p", [], "/", "", ""⟩
    rfl rfl rfl rfl rfl

/-- Claim C9: every JSON value kind — bare string, number, boolean, null,
and array, not only an object with an `action` discriminator — is accepted
by the handler and returned as the HTTP 200 response payload. -/
theorem chat_handler_accepts_any_json_value :
    (chat_handler true sampleReq "\"hi\"").2 =
      Except.ok (JsonVal.obj [("response", JsonVal.str "hi")]) ∧
    (chat_handler true sampleReq "42").2 =
      Except.ok (JsonVal.obj [("response", JsonVal.num 42 0)]) ∧
    (chat_handler true sampleReq "true").2 =
      Except.ok (JsonVal.obj [("response", JsonVal.bool true)]) ∧
    (chat_handler true sampleReq "null").2 =
      Except.ok (JsonVal.obj [("response", JsonVal.null)]) ∧
    (chat_handler true sampleReq "[1, 2]").2 =
      Except.ok (JsonVal.obj [("response",
        JsonVal.arr [JsonVal.num 1 0, JsonVal.num 2 0])]) :=
  ⟨rfl, rfl, rfl, rfl, rfl⟩

/-- Claim C10: the 422 branch of `chat_handler` is unreachable — the guarded
block only formats fields of the already-validated request, which is total,
so every error the handler can produce carries status 500 and the detail
`"Invalid request body structure."` is never surfaced. -/
theorem chat_handler_no_422
    (b : Bool) (request : ChatRequest) (modelReply : String) (e : HTTPError)
    (h : (chat_handler b request modelReply).2 = Except.error e) :
    e.status = 500 := by
  rcases b with _ | _
  · simp [chat_handler] at h
    simp [← h]
  · unfold chat_handler logBlock try_body at h
    rcases hj : json_loads (clean modelReply) with _ | v
    · simp [hj] at h
      simp [← h]
    · simp [hj] at h

/-- Witness for `chat_handler_no_422` at a concrete failing request. -/
theorem chat_handler_no_422_witness :
    HTTPError.status ⟨500, "Gemini model not initialized. Check API Key."⟩ = 500 :=
  chat_handler_no_422 false sampleReq "x"
    ⟨500, "Gemini model not initialized. Check API Key."⟩ rfl
